import Mathlib

/-!
Verification of the Informatica mapping XML parser (src/main.py): a shallow
embedding of its data model, parser, reporter and JSON exporter, with theorems
checking the specification's claims against the embedded code.

The XML input is modelled as an already-parsed element tree (`XML`): the
source hands the file to `xml.etree.ElementTree` and works only on the
resulting tree, so a well-formed XML document corresponds to an `XML` value.
`findall ".//TAG"` on an element returns the strict descendants with that tag
in document (preorder) order, which is what `XML.findall` computes.
-/

/-- An XML element: tag, attributes (unique names in a well-formed document)
and child elements in document order. -/
inductive XML : Type where
  | elem (tag : String) (attrib : List (String × String)) (children : List XML)
deriving Repr

def XML.tag : XML → String
  | .elem t _ _ => t

def XML.attrib : XML → List (String × String)
  | .elem _ a _ => a

def XML.children : XML → List XML
  | .elem _ _ c => c

/-- First-match association lookup, the behaviour of a Python dict whose keys
are unique. -/
def dictGet (d : List (String × String)) (k : String) : Option String :=
  (d.find? (fun p => p.1 == k)).map (fun p => p.2)

/-- `elem.get(key)`: attribute lookup returning `none` when absent. -/
def XML.get (x : XML) (k : String) : Option String :=
  dictGet x.attrib k

mutual

/-- All elements of the subtree rooted at the argument (itself included)
whose tag matches, in preorder document order. -/
def XML.selfAll (tag : String) : XML → List XML
  | .elem t a c => (if t = tag then [XML.elem t a c] else []) ++ XML.listAll tag c

/-- `selfAll` over a forest of sibling subtrees. -/
def XML.listAll (tag : String) : List XML → List XML
  | [] => []
  | x :: xs => XML.selfAll tag x ++ XML.listAll tag xs

end

/-- `elem.findall(".//TAG")`: every strict descendant with the given tag, in
document order. -/
def XML.findall (x : XML) (tag : String) : List XML :=
  XML.listAll tag x.children

/-- `elem.find(".//TAG")`: the first strict descendant with the given tag. -/
def XML.findFirst (x : XML) (tag : String) : Option XML :=
  (x.findall tag).head?

/-! ## Python `int()` coercion, as used by `_safe_int`

`int(s)` in CPython first transforms the string
(`_PyUnicode_TransformDecimalAndSpaceToASCII`): code points below 127 are
kept as they are, any other Unicode whitespace becomes a plain space, any
other Unicode decimal digit (category Nd) becomes the ASCII digit of its
value, and any other code point makes the parse fail. The resulting ASCII
text is then parsed: surrounding ASCII whitespace, an optional sign, and a
digit run with single underscores allowed between digits. The digit and
whitespace tables below are the Unicode 14.0 data the Python 3 runtime
ships. -/

/-- The ASCII whitespace the integer parser skips around the number (any
other Unicode whitespace has already been turned into a plain space by the
transform). -/
def isPySpace (c : Char) : Bool :=
  c = ' ' || c = '\t' || c = '\n' || c = '\r' || c = '\x0B' || c = '\x0C'

/-- First code points of the Unicode 14.0 decimal-digit (category Nd) runs:
each base starts ten consecutive code points carrying the values 0 to 9. -/
def ND_BASES : List Nat :=
  [ 48, 1632, 1776, 1984, 2406, 2534, 2662, 2790, 2918, 3046, 3174, 3302
  , 3430, 3558, 3664, 3792, 3872, 4160, 4240, 6112, 6160, 6470, 6608, 6784
  , 6800, 6992, 7088, 7232, 7248, 42528, 43216, 43264, 43472, 43504, 43600
  , 44016, 65296, 66720, 68912, 69734, 69872, 69942, 70096, 70384, 70736
  , 70864, 71248, 71360, 71472, 71904, 72016, 72784, 73040, 73120, 92768
  , 92864, 93008, 120782, 120792, 120802, 120812, 120822, 123200, 123632
  , 125264, 130032 ]

/-- `Py_UNICODE_TODECIMAL`: the value of a Unicode decimal digit, `none`
for any other character. -/
def pyToDecimal (c : Char) : Option Nat :=
  (ND_BASES.find? (fun b => decide (b ≤ c.toNat) && decide (c.toNat < b + 10))).map
    (fun b => c.toNat - b)

/-- The code points `Py_UNICODE_ISSPACE` accepts (what `str.isspace` is
true of). -/
def PY_SPACE_CODES : List Nat :=
  [ 9, 10, 11, 12, 13, 28, 29, 30, 31, 32, 133, 160, 5760, 8192, 8193, 8194
  , 8195, 8196, 8197, 8198, 8199, 8200, 8201, 8202, 8232, 8233, 8239, 8287
  , 12288 ]

def pyUniSpace (c : Char) : Bool := PY_SPACE_CODES.contains c.toNat

/-- One character of the pre-parse transform: ASCII kept, other Unicode
whitespace to a plain space, other Unicode decimal digits to the ASCII
digit of their value, anything else fails the whole `int()` call. -/
def pyTransformChar (c : Char) : Option Char :=
  if c.toNat < 127 then some c
  else if pyUniSpace c then some ' '
  else
    match pyToDecimal c with
    | some d => some (Char.ofNat (48 + d))
    | none => none

/-- The pre-parse transform over the whole string. -/
def pyTransform : List Char → Option (List Char)
  | [] => some []
  | c :: rest =>
      match pyTransformChar c, pyTransform rest with
      | some c2, some rest2 => some (c2 :: rest2)
      | _, _ => none

/-- A character `int()` can use as a decimal digit: an ASCII digit or any
other Unicode decimal digit. -/
def pyDigit (c : Char) : Bool := c.isDigit || (pyToDecimal c).isSome

/-- The digit run of an integer literal: at least one digit, single
underscores allowed between digits. -/
def digitsTail : List Char → Bool
  | [] => true
  | '_' :: c :: rest => c.isDigit && digitsTail (c :: rest)
  | c :: rest => c.isDigit && digitsTail rest

def digitsOk : List Char → Bool
  | [] => false
  | c :: rest => c.isDigit && digitsTail rest

/-- Numeric value of a valid digit run (underscores skipped). -/
def digitsVal (cs : List Char) : Nat :=
  cs.foldl (fun a c => if c = '_' then a else a * 10 + (c.toNat - 48)) 0

def pyStripChars (cs : List Char) : List Char :=
  ((cs.dropWhile isPySpace).reverse.dropWhile isPySpace).reverse

def pyIntOfChars : List Char → Option Int
  | '+' :: rest => if digitsOk rest then some (digitsVal rest : Nat) else none
  | '-' :: rest => if digitsOk rest then some (-(digitsVal rest : Int)) else none
  | rest => if digitsOk rest then some (digitsVal rest : Nat) else none

/-- Python `int(s)` on a string: the Unicode-to-ASCII transform, then the
ASCII integer parse; `some` the value, `none` when `int` raises. -/
def pyInt (s : String) : Option Int :=
  match pyTransform s.toList with
  | none => none
  | some cs => pyIntOfChars (pyStripChars cs)

/-- `InformaticaXMLParser._safe_int`: best-effort coercion, `none` for a
missing or non-numeric value. -/
def safe_int : Option String → Option Int
  | none => none
  | some v => pyInt v

/-! ## Data model (`Port`, `Transformation`, `Connection`, `Mapping`) -/

structure Port where
  name : String
  datatype : String
  precision : Option Int := none
  scale : Option Int := none
  nullable : String := "NOTNULL"
  port_type : String := "INPUT"
  expression : Option String := none
deriving DecidableEq, Repr

structure Transformation where
  name : String
  type : String
  description : Option String := none
  ports : List Port := []
  properties : List (String × String) := []
deriving DecidableEq, Repr

structure Connection where
  from_transformation : String
  from_port : String
  to_transformation : String
  to_port : String
deriving DecidableEq, Repr

structure Mapping where
  name : String
  description : Option String := none
  folder : Option String := none
  transformations : List Transformation := []
  connections : List Connection := []
deriving DecidableEq, Repr

def Mapping.get_transformation_by_name (m : Mapping) (name : String) :
    Option Transformation :=
  m.transformations.find? (fun trans => trans.name == name)

def Mapping.get_sources (m : Mapping) : List Transformation :=
  m.transformations.filter (fun t => t.type == "Source Definition")

def Mapping.get_targets (m : Mapping) : List Transformation :=
  m.transformations.filter (fun t => t.type == "Target Definition")

/-- One step of `collections.Counter`: bump the count of a key, appending a
new key at the end (Counter preserves first-encounter order). -/
def countAdd : List (String × Nat) → String → List (String × Nat)
  | [], ty => [(ty, 1)]
  | (k, n) :: rest, ty =>
      if k == ty then (k, n + 1) :: rest else (k, n) :: countAdd rest ty

def Mapping.get_transformation_counts (m : Mapping) : List (String × Nat) :=
  (m.transformations.map (fun t => t.type)).foldl countAdd []

structure Summary where
  name : String
  folder : Option String
  total_transformations : Nat
  total_connections : Nat
  sources : Nat
  targets : Nat
  transformation_counts : List (String × Nat)
deriving DecidableEq, Repr

def Mapping.get_summary (m : Mapping) : Summary where
  name := m.name
  folder := m.folder
  total_transformations := m.transformations.length
  total_connections := m.connections.length
  sources := m.get_sources.length
  targets := m.get_targets.length
  transformation_counts := m.get_transformation_counts

/-! ## Parser (`InformaticaXMLParser`)

The namespace handling of the source is inert for these queries: the paths
`.//MAPPING`, `.//FOLDER`, ... carry no `ns:` prefix, so `find(path,
self.namespace)` and the unqualified retry both resolve to the same plain-tag
search; `_find_element`/`_find_all_elements` therefore embed as a plain
descendant search. -/

/-- The canonical-name table `InformaticaXMLParser.TRANSFORMATION_TYPES`. -/
def TRANSFORMATION_TYPES : List (String × String) :=
  [ ("Source Definition", "Source Definition")
  , ("Source Qualifier", "Source Qualifier")
  , ("Target Definition", "Target Definition")
  , ("Expression", "Expression")
  , ("Filter", "Filter")
  , ("Aggregator", "Aggregator")
  , ("Joiner", "Joiner")
  , ("Lookup Procedure", "Lookup")
  , ("Router", "Router")
  , ("Sorter", "Sorter")
  , ("Update Strategy", "Update Strategy")
  , ("Normalizer", "Normalizer")
  , ("Rank", "Rank")
  , ("Sequence Generator", "Sequence Generator")
  , ("Stored Procedure", "Stored Procedure")
  , ("Union", "Union")
  ]

/-- The body of the loop of `_parse_ports`: one `Port` from one
`TRANSFORMFIELD` element. -/
def portOf (port_elem : XML) : Port where
  name := (port_elem.get "NAME").getD "Unknown"
  datatype := (port_elem.get "DATATYPE").getD "string"
  precision := safe_int (port_elem.get "PRECISION")
  scale := safe_int (port_elem.get "SCALE")
  nullable := (port_elem.get "NULLABLE").getD "NOTNULL"
  port_type := (port_elem.get "PORTTYPE").getD "INPUT"
  expression := port_elem.get "EXPRESSION"

def parse_ports (trans_elem : XML) : List Port :=
  (trans_elem.findall "TRANSFORMFIELD").map portOf

/-- Insert-or-replace on an association list: `d[k] = v` on a Python dict
(an existing key keeps its position, a new key is appended). -/
def dictInsert : List (String × String) → String → String → List (String × String)
  | [], k, v => [(k, v)]
  | (k0, v0) :: rest, k, v =>
      if k0 == k then (k, v) :: rest else (k0, v0) :: dictInsert rest k v

/-- The body of the loop of `_parse_properties` over `TABLEATTRIBUTE`
elements: store the pair only when both attributes are present and non-empty
(Python truthiness of `prop_name and prop_value`). -/
def propStep (properties : List (String × String)) (prop_elem : XML) :
    List (String × String) :=
  match prop_elem.get "NAME", prop_elem.get "VALUE" with
  | some prop_name, some prop_value =>
      if prop_name != "" && prop_value != "" then
        dictInsert properties prop_name prop_value
      else properties
  | _, _ => properties

/-- `_parse_properties`: the element's own attributes copied first, then the
nested `TABLEATTRIBUTE` name/value pairs overlaid in document order. -/
def parse_properties (trans_elem : XML) : List (String × String) :=
  (trans_elem.findall "TABLEATTRIBUTE").foldl propStep
    (trans_elem.attrib.foldl (fun d p => dictInsert d p.1 p.2) [])

/-- The body of the loop of `_parse_transformations`: one `Transformation`
from one `TRANSFORMATION` element, its type normalized through the table with
unknown raw names passing through (`dict.get(trans_type, trans_type)`). -/
def transOf (trans_elem : XML) : Transformation :=
  let trans_type := (trans_elem.get "TYPE").getD "Unknown"
  { name := (trans_elem.get "NAME").getD "Unknown"
  , type := (dictGet TRANSFORMATION_TYPES trans_type).getD trans_type
  , description := trans_elem.get "DESCRIPTION"
  , ports := parse_ports trans_elem
  , properties := parse_properties trans_elem }

def parse_transformations (mapping_elem : XML) : List Transformation :=
  (mapping_elem.findall "TRANSFORMATION").map transOf

/-- The body of the loop of `_parse_connections`: a `Connection` only when
all four addressing attributes are present and non-empty (Python truthiness
of `all([...])`), otherwise nothing. -/
def connOf (conn_elem : XML) : Option Connection :=
  match conn_elem.get "FROMFIELD", conn_elem.get "FROMINSTANCE",
        conn_elem.get "TOFIELD", conn_elem.get "TOINSTANCE" with
  | some from_field, some from_instance, some to_field, some to_instance =>
      if from_field != "" && from_instance != "" &&
          to_field != "" && to_instance != "" then
        some { from_transformation := from_instance
             , from_port := from_field
             , to_transformation := to_instance
             , to_port := to_field }
      else none
  | _, _, _, _ => none

def parse_connections (mapping_elem : XML) : List Connection :=
  (mapping_elem.findall "CONNECTOR").filterMap connOf

/-- `_get_folder_name`: the first `FOLDER` element anywhere in the document,
its `NAME` attribute (`none` when the element or the attribute is absent). -/
def get_folder_name (root : XML) : Option String :=
  (root.findFirst "FOLDER").bind (fun folder_elem => folder_elem.get "NAME")

/-- `InformaticaXMLParser.parse` on an already-parsed element tree: locate
the first `MAPPING` element, else fail; then assemble the `Mapping`. -/
def parse (root : XML) : Except String Mapping :=
  match root.findFirst "MAPPING" with
  | none => .error "No MAPPING element found in XML"
  | some mapping_elem =>
      .ok { name := (mapping_elem.get "NAME").getD "Unknown"
          , description := mapping_elem.get "DESCRIPTION"
          , folder := get_folder_name root
          , transformations := parse_transformations mapping_elem
          , connections := parse_connections mapping_elem }

/-! ## Reporter (`print_mapping_summary`)

Each Python `print` call is embedded as appending the printed string to
`ReportState.out`; the `Mapping` travels in the state so that the frame
property (the reporter never writes to it) is a checkable statement rather
than a convention. -/

structure ReportState where
  out : List String
  mapping : Mapping

def emit (s : ReportState) (line : String) : ReportState :=
  { s with out := s.out ++ [line] }

/-- `"=" * 80` -/
def eq80 : String := String.mk (List.replicate 80 '=')

/-- Python `f"{s:.<50}"`-style left-justified padding. -/
def ljust (s : String) (w : Nat) (c : Char) : String :=
  s ++ String.mk (List.replicate (w - s.length) c)

/-- Python `f"{s:>3}"`-style right-justified padding. -/
def rjust (s : String) (w : Nat) (c : Char) : String :=
  String.mk (List.replicate (w - s.length) c) ++ s

/-- Python `str` of an optional string (`str(None) = "None"`). -/
def strOfOpt (o : Option String) : String := o.getD "None"

/-- `Connection.__repr__`. -/
def Connection.reprStr (c : Connection) : String :=
  c.from_transformation ++ "." ++ c.from_port ++ " -> " ++
    c.to_transformation ++ "." ++ c.to_port

/-- Python truthiness of `p.expression` (a `str` or `None`). -/
def hasExpr (p : Port) : Bool :=
  match p.expression with
  | some e => e != ""
  | none => false

def printBreakdownRow (s : ReportState) (row : String × Nat) : ReportState :=
  emit s ("  " ++ ljust row.1 50 '.' ++ " " ++ rjust (toString row.2) 3 ' ')

def printPortSample (s : ReportState) (port : Port) : ReportState :=
  emit s ("       - " ++ port.name ++ " (" ++ port.datatype ++ ")")

def printSourceBlock (s : ReportState) (source : Transformation) : ReportState :=
  let s := emit s ("\n  \uF8FF\u00FC\u00EC\u2022 " ++ source.name)
  let s := emit s ("     Type: " ++ source.type)
  let s := emit s ("     Ports: " ++ toString source.ports.length)
  if source.ports.isEmpty then s
  else
    let s := emit s "     Sample Ports:"
    (source.ports.take 5).foldl printPortSample s

def printTargetBlock (s : ReportState) (target : Transformation) : ReportState :=
  let s := emit s ("\n  \uF8FF\u00FC\u00EC\u00A7 " ++ target.name)
  let s := emit s ("     Type: " ++ target.type)
  let s := emit s ("     Ports: " ++ toString target.ports.length)
  if target.ports.isEmpty then s
  else
    let s := emit s "     Sample Ports:"
    (target.ports.take 5).foldl printPortSample s

def printExprRow (s : ReportState) (port : Port) : ReportState :=
  emit s ("       - " ++ port.name ++ " = " ++ strOfOpt port.expression)

def printDetailBlock (s : ReportState) (trans : Transformation) : ReportState :=
  if trans.type == "Source Definition" || trans.type == "Target Definition" then s
  else
    let s := emit s ("\n  \uF8FF\u00FC\u00EE\u00DF " ++ trans.name)
    let s := emit s ("     Type: " ++ trans.type)
    let s := emit s ("     Ports: " ++ toString trans.ports.length)
    let expr_ports := trans.ports.filter hasExpr
    if expr_ports.isEmpty then s
    else
      let s := emit s ("     Expressions: " ++ toString expr_ports.length)
      (expr_ports.take 3).foldl printExprRow s

def printConnRow (s : ReportState) (row : Nat × Connection) : ReportState :=
  emit s ("  " ++ rjust (toString row.1) 2 ' ' ++ ". " ++ row.2.reprStr)

def print_mapping_summary (mapping : Mapping) : ReportState :=
  let s : ReportState := { out := [], mapping := mapping }
  let s := emit s eq80
  let s := emit s ("MAPPING SUMMARY: " ++ mapping.name)
  let s := emit s eq80
  let summary := mapping.get_summary
  let s := emit s ("\n\uF8FF\u00FC\u00EC\u00C5 Folder: " ++ strOfOpt summary.folder)
  let s := emit s ("\uF8FF\u00FC\u00EC\u00E4 Total Transformations: " ++
    toString summary.total_transformations)
  let s := emit s ("\uF8FF\u00FC\u00EE\u00F3 Total Connections: " ++
    toString summary.total_connections)
  let s := emit s ("\uF8FF\u00FC\u00EC\u2022 Source Count: " ++ toString summary.sources)
  let s := emit s ("\uF8FF\u00FC\u00EC\u00A7 Target Count: " ++ toString summary.targets)
  let s := emit s ("\n" ++ eq80)
  let s := emit s "TRANSFORMATION BREAKDOWN"
  let s := emit s eq80
  let s := (summary.transformation_counts.mergeSort
    (fun a b => (compare a.1 b.1).isLE)).foldl printBreakdownRow s
  let s := emit s ("\n" ++ eq80)
  let s := emit s "SOURCE TRANSFORMATIONS"
  let s := emit s eq80
  let s := mapping.get_sources.foldl printSourceBlock s
  let s := emit s ("\n" ++ eq80)
  let s := emit s "TARGET TRANSFORMATIONS"
  let s := emit s eq80
  let s := mapping.get_targets.foldl printTargetBlock s
  let s := emit s ("\n" ++ eq80)
  let s := emit s "TRANSFORMATION DETAILS"
  let s := emit s eq80
  let s := mapping.transformations.foldl printDetailBlock s
  let s := emit s ("\n" ++ eq80)
  let s := emit s "DATA FLOW (First 10 connections)"
  let s := emit s eq80
  let s := (List.enumFrom 1 (mapping.connections.take 10)).foldl printConnRow s
  let s := if mapping.connections.length > 10 then
      emit s ("  ... and " ++ toString (mapping.connections.length - 10) ++
        " more connections")
    else s
  emit s ("\n" ++ eq80)

/-! ## Exporter (`export_to_json`)

The exporter is embedded at the level of the structured document it writes:
a JSON value (`Json`), with the exact field names and field order of the
source's `data` dictionary. File output and text rendering are outside the
model. -/

inductive Json : Type where
  | null
  | str (s : String)
  | int (n : Int)
  | arr (xs : List Json)
  | obj (fields : List (String × Json))
deriving Repr

def jsonOfOptStr : Option String → Json
  | none => .null
  | some s => .str s

def jsonOfOptInt : Option Int → Json
  | none => .null
  | some n => .int n

def portToJson (p : Port) : Json :=
  .obj [ ("name", .str p.name)
       , ("datatype", .str p.datatype)
       , ("precision", jsonOfOptInt p.precision)
       , ("scale", jsonOfOptInt p.scale)
       , ("nullable", .str p.nullable)
       , ("port_type", .str p.port_type)
       , ("expression", jsonOfOptStr p.expression) ]

def transToJson (t : Transformation) : Json :=
  .obj [ ("name", .str t.name)
       , ("type", .str t.type)
       , ("description", jsonOfOptStr t.description)
       , ("ports", .arr (t.ports.map portToJson))
       , ("properties", .obj (t.properties.map (fun p => (p.1, Json.str p.2)))) ]

def connToJson (c : Connection) : Json :=
  .obj [ ("from_transformation", .str c.from_transformation)
       , ("from_port", .str c.from_port)
       , ("to_transformation", .str c.to_transformation)
       , ("to_port", .str c.to_port) ]

/-- `export_to_json`: the structured document written for a `Mapping`. -/
def export_to_json (mapping : Mapping) : Json :=
  .obj [ ("name", .str mapping.name)
       , ("description", jsonOfOptStr mapping.description)
       , ("folder", jsonOfOptStr mapping.folder)
       , ("transformations", .arr (mapping.transformations.map transToJson))
       , ("connections", .arr (mapping.connections.map connToJson)) ]

/-! ## Re-reading the structured document

The repository contains no reader for its own export; the round-trip claim
needs one, so it is modelled from the spec. -/

/-- Modelled from the spec: section 6's optional string fields, "null used
where no value". -/
def decodeOptStr : Json → Option (Option String)
  | .null => some none
  | .str s => some (some s)
  | _ => none

/-- Modelled from the spec: section 6's optional integer fields (`precision`,
`scale`), "null used where no value". -/
def decodeOptInt : Json → Option (Option Int)
  | .null => some none
  | .int n => some (some n)
  | _ => none

/-- Decode each element of a JSON array, failing if any element fails. -/
def decodeListWith {α : Type} (g : Json → Option α) : List Json → Option (List α)
  | [] => some []
  | j :: js =>
      match g j, decodeListWith g js with
      | some a, some as => some (a :: as)
      | _, _ => none

/-- Modelled from the spec: a port object with the section 6 field names
`name`, `datatype`, `precision`, `scale`, `nullable`, `port_type`,
`expression`, no field omitted. -/
def decodePort : Json → Option Port
  | .obj [ ("name", .str name), ("datatype", .str datatype)
         , ("precision", pj), ("scale", sj), ("nullable", .str nullable)
         , ("port_type", .str port_type), ("expression", ej) ] =>
      match decodeOptInt pj, decodeOptInt sj, decodeOptStr ej with
      | some precision, some scale, some expression =>
          some { name := name, datatype := datatype, precision := precision
               , scale := scale, nullable := nullable, port_type := port_type
               , expression := expression }
      | _, _, _ => none
  | _ => none

/-- Modelled from the spec: the `properties` object, a string-to-string map. -/
def decodeProps : List (String × Json) → Option (List (String × String))
  | [] => some []
  | (k, Json.str v) :: rest => (decodeProps rest).map (fun r => (k, v) :: r)
  | _ => none

/-- Modelled from the spec: a transformation object with field names `name`,
`type`, `description`, `ports`, `properties`. -/
def decodeTrans : Json → Option Transformation
  | .obj [ ("name", .str name), ("type", .str type), ("description", dj)
         , ("ports", .arr pjs), ("properties", .obj prs) ] =>
      match decodeOptStr dj, decodeListWith decodePort pjs, decodeProps prs with
      | some description, some ports, some properties =>
          some { name := name, type := type, description := description
               , ports := ports, properties := properties }
      | _, _, _ => none
  | _ => none

/-- Modelled from the spec: a connection object with field names
`from_transformation`, `from_port`, `to_transformation`, `to_port`. -/
def decodeConn : Json → Option Connection
  | .obj [ ("from_transformation", .str a), ("from_port", .str b)
         , ("to_transformation", .str c), ("to_port", .str d) ] =>
      some { from_transformation := a, from_port := b
           , to_transformation := c, to_port := d }
  | _ => none

/-- Modelled from the spec: re-read the structured document's top level,
keys `name`, `description`, `folder`, `transformations`, `connections`. -/
def read_mapping_json : Json → Option Mapping
  | .obj [ ("name", .str name), ("description", dj), ("folder", fj)
         , ("transformations", .arr tjs), ("connections", .arr cjs) ] =>
      match decodeOptStr dj, decodeOptStr fj,
            decodeListWith decodeTrans tjs, decodeListWith decodeConn cjs with
      | some description, some folder, some transformations, some connections =>
          some { name := name, description := description, folder := folder
               , transformations := transformations, connections := connections }
      | _, _, _, _ => none
  | _ => none

/-! ## Spec-side characterizations and concrete sample documents -/

/-- Python truthiness of an optional string attribute: present and
non-empty. -/
def attrPresent (o : Option String) : Bool :=
  match o with
  | some s => s != ""
  | none => false

/-- The spec's condition on a connector element: `from-field`,
`from-instance`, `to-field`, `to-instance` all present and non-empty. -/
def connectorComplete (conn_elem : XML) : Bool :=
  attrPresent (conn_elem.get "FROMFIELD") &&
    attrPresent (conn_elem.get "FROMINSTANCE") &&
    attrPresent (conn_elem.get "TOFIELD") &&
    attrPresent (conn_elem.get "TOINSTANCE")

/-- The name/value pair a `TABLEATTRIBUTE` element contributes to the
properties overlay: only when both attributes are present and non-empty. -/
def propOf (prop_elem : XML) : Option (String × String) :=
  match prop_elem.get "NAME", prop_elem.get "VALUE" with
  | some n, some v => if n != "" && v != "" then some (n, v) else none
  | _, _ => none

/-- The overlay entries of a transformation element, in document order: the
spec's description of step 5d. -/
def overlayPairs (trans_elem : XML) : List (String × String) :=
  (trans_elem.findall "TABLEATTRIBUTE").filterMap propOf

/-- A port element: one numeric attribute, one non-numeric. -/
def samplePortElem : XML :=
  .elem "TRANSFORMFIELD"
    [("NAME", "P1"), ("DATATYPE", "decimal"), ("PRECISION", "12"), ("SCALE", "abc")] []

def samplePropElem : XML :=
  .elem "TABLEATTRIBUTE" [("NAME", "Tracing Level"), ("VALUE", "Normal")] []

def sampleTransElem : XML :=
  .elem "TRANSFORMATION" [("NAME", "SQ_X"), ("TYPE", "Lookup Procedure")]
    [samplePortElem, samplePropElem]

/-- A connector with all four addressing attributes. -/
def sampleConnectorOk : XML :=
  .elem "CONNECTOR"
    [("FROMFIELD", "f1"), ("FROMINSTANCE", "t1"), ("TOFIELD", "f2"), ("TOINSTANCE", "t2")] []

/-- A connector missing `TOFIELD`: the parser must drop it. -/
def sampleConnectorBad : XML :=
  .elem "CONNECTOR"
    [("FROMFIELD", "f1"), ("FROMINSTANCE", "t1"), ("TOINSTANCE", "t2")] []

def sampleMappingElem : XML :=
  .elem "MAPPING" [("NAME", "m_demo")]
    [sampleTransElem, sampleConnectorOk, sampleConnectorBad]

def sampleRoot : XML :=
  .elem "POWERMART" []
    [.elem "REPOSITORY" []
      [.elem "FOLDER" [("NAME", "DemoFolder")] [sampleMappingElem]]]

/-- A well-formed document with no `MAPPING` element anywhere. -/
def sampleNoMappingRoot : XML :=
  .elem "POWERMART" [] [.elem "REPOSITORY" [] []]

def samplePort : Port :=
  { name := "P1", datatype := "decimal", precision := some 12, scale := none
  , nullable := "NOTNULL", port_type := "INPUT", expression := none }

def sampleTrans : Transformation :=
  { name := "SQ_X", type := "Lookup", description := none
  , ports := [samplePort]
  , properties :=
      [("NAME", "SQ_X"), ("TYPE", "Lookup Procedure"), ("Tracing Level", "Normal")] }

def sampleConnection : Connection :=
  { from_transformation := "t1", from_port := "f1"
  , to_transformation := "t2", to_port := "f2" }

/-- What `parse` yields on `sampleRoot`. -/
def sampleMapping : Mapping :=
  { name := "m_demo", description := none, folder := some "DemoFolder"
  , transformations := [sampleTrans], connections := [sampleConnection] }

/-! ## Theorems -/

theorem digitsOk_false_of_no_digit (cs : List Char)
    (h : ∀ c ∈ cs, c.isDigit = false) : digitsOk cs = false := by
  cases cs with
  | nil => rfl
  | cons c rest => simp [digitsOk, h c (by simp)]

theorem pyIntOfChars_none_of_no_digit (cs : List Char)
    (h : ∀ c ∈ cs, c.isDigit = false) : pyIntOfChars cs = none := by
  unfold pyIntOfChars
  split
  · next rest =>
      have hr : ∀ c ∈ rest, c.isDigit = false :=
        fun c hc => h c (List.mem_cons_of_mem _ hc)
      simp [digitsOk_false_of_no_digit rest hr]
  · next rest =>
      have hr : ∀ c ∈ rest, c.isDigit = false :=
        fun c hc => h c (List.mem_cons_of_mem _ hc)
      simp [digitsOk_false_of_no_digit rest hr]
  · simp [digitsOk_false_of_no_digit cs h]

theorem pyTransformChar_no_digit (c c2 : Char) (hd : pyDigit c = false)
    (h : pyTransformChar c = some c2) : c2.isDigit = false := by
  have hd2 := hd
  unfold pyDigit at hd2
  rw [Bool.or_eq_false_iff] at hd2
  obtain ⟨ha, hu⟩ := hd2
  unfold pyTransformChar at h
  split at h
  · cases h; exact ha
  · split at h
    · cases h; rfl
    · cases hp : pyToDecimal c with
      | some d => rw [hp] at hu; simp at hu
      | none => simp only [hp] at h; cases h

theorem pyTransform_no_digit (l : List Char) (cs : List Char)
    (h : pyTransform l = some cs) (hd : ∀ c ∈ l, pyDigit c = false) :
    ∀ c2 ∈ cs, c2.isDigit = false := by
  induction l generalizing cs with
  | nil =>
      unfold pyTransform at h
      cases h
      intro c2 hc2
      simp at hc2
  | cons c rest ih =>
      unfold pyTransform at h
      cases h1 : pyTransformChar c with
      | none => rw [h1] at h; cases h
      | some c2 =>
          cases h2 : pyTransform rest with
          | none => rw [h1, h2] at h; cases h
          | some rest2 =>
              rw [h1, h2] at h
              cases h
              intro c3 hc3
              rcases List.mem_cons.mp hc3 with h3 | h3
              · subst h3
                exact pyTransformChar_no_digit c c3 (hd c (List.mem_cons_self c rest)) h1
              · exact ih rest2 h2 (fun x hx => hd x (List.mem_cons_of_mem c hx)) c3 h3

theorem pyInt_none_of_no_digit (s : String)
    (h : ∀ c ∈ s.toList, pyDigit c = false) : pyInt s = none := by
  unfold pyInt
  cases ht : pyTransform s.toList with
  | none => rfl
  | some cs =>
      have hcs := pyTransform_no_digit s.toList cs ht h
      apply pyIntOfChars_none_of_no_digit
      intro c hc
      apply hcs
      unfold pyStripChars at hc
      rw [List.mem_reverse] at hc
      have h1 := (List.dropWhile_sublist isPySpace).subset hc
      rw [List.mem_reverse] at h1
      exact (List.dropWhile_sublist isPySpace).subset h1

/-- Claim C2: on well-formed XML with no `MAPPING` element anywhere in the
tree (the root included), `parse` fails with the format error
"No MAPPING element found in XML" and returns no `Mapping`. -/
theorem parse_fails_without_mapping (root : XML)
    (h : XML.selfAll "MAPPING" root = []) :
    parse root = Except.error "No MAPPING element found in XML" := by
  cases root with
  | elem t a c =>
    rw [XML.selfAll] at h
    have h2 : XML.listAll "MAPPING" c = [] := (List.append_eq_nil.mp h).2
    simp [parse, XML.findFirst, XML.findall, XML.children, h2]

/-- Witness for C2 at a concrete document with no mapping element. -/
theorem parse_fails_without_mapping_witness :
    parse sampleNoMappingRoot = Except.error "No MAPPING element found in XML" :=
  parse_fails_without_mapping sampleNoMappingRoot rfl

/-- Claim C4: port numeric coercion is total and best-effort. For every
`TRANSFORMFIELD` element, a `PRECISION` of "abc" (or any string containing
no decimal digit at all, ASCII or any other Unicode decimal digit) yields a
null precision without raising, a missing `PRECISION` yields null, and "12"
yields the integer 12; the same holds for `SCALE`. -/
theorem port_numeric_coercion (port_elem : XML) :
    ((port_elem.get "PRECISION") = some "abc" → (portOf port_elem).precision = none) ∧
    ((port_elem.get "PRECISION") = none → (portOf port_elem).precision = none) ∧
    ((port_elem.get "PRECISION") = some "12" → (portOf port_elem).precision = some 12) ∧
    (∀ s, (port_elem.get "PRECISION") = some s →
      (∀ c ∈ s.toList, pyDigit c = false) → (portOf port_elem).precision = none) ∧
    ((port_elem.get "SCALE") = some "abc" → (portOf port_elem).scale = none) ∧
    ((port_elem.get "SCALE") = none → (portOf port_elem).scale = none) ∧
    ((port_elem.get "SCALE") = some "12" → (portOf port_elem).scale = some 12) ∧
    (∀ s, (port_elem.get "SCALE") = some s →
      (∀ c ∈ s.toList, pyDigit c = false) → (portOf port_elem).scale = none) := by
  refine ⟨?_, ?_, ?_, ?_, ?_, ?_, ?_, ?_⟩
  · intro h
    show safe_int (port_elem.get "PRECISION") = none
    rw [h]; rfl
  · intro h
    show safe_int (port_elem.get "PRECISION") = none
    rw [h]; rfl
  · intro h
    show safe_int (port_elem.get "PRECISION") = some 12
    rw [h]; rfl
  · intro s hs hd
    show safe_int (port_elem.get "PRECISION") = none
    rw [hs]
    exact pyInt_none_of_no_digit s hd
  · intro h
    show safe_int (port_elem.get "SCALE") = none
    rw [h]; rfl
  · intro h
    show safe_int (port_elem.get "SCALE") = none
    rw [h]; rfl
  · intro h
    show safe_int (port_elem.get "SCALE") = some 12
    rw [h]; rfl
  · intro s hs hd
    show safe_int (port_elem.get "SCALE") = none
    rw [hs]
    exact pyInt_none_of_no_digit s hd

/-- Claim C5: transformation type normalization. A raw `TYPE` in the
canonical table yields the table's canonical name ("Lookup Procedure"
becomes "Lookup"), a raw type not in the table passes through unchanged
("CustomStep" stays "CustomStep"), and a missing `TYPE` or `NAME` yields
the literal string "Unknown". -/
theorem transformation_type_normalization (trans_elem : XML) :
    ((trans_elem.get "TYPE") = some "Lookup Procedure" →
      (transOf trans_elem).type = "Lookup") ∧
    (∀ s, (trans_elem.get "TYPE") = some s →
      dictGet TRANSFORMATION_TYPES s = none → (transOf trans_elem).type = s) ∧
    ((trans_elem.get "TYPE") = some "CustomStep" →
      (transOf trans_elem).type = "CustomStep") ∧
    ((trans_elem.get "TYPE") = none → (transOf trans_elem).type = "Unknown") ∧
    ((trans_elem.get "NAME") = none → (transOf trans_elem).name = "Unknown") := by
  refine ⟨?_, ?_, ?_, ?_, ?_⟩
  · intro h; simp [transOf, h]; rfl
  · intro s hs hnone; simp [transOf, hs, hnone]
  · intro h; simp [transOf, h]; rfl
  · intro h; simp [transOf, h]; rfl
  · intro h; simp [transOf, h]

theorem connOf_isSome (conn_elem : XML) :
    (connOf conn_elem).isSome = connectorComplete conn_elem := by
  unfold connOf connectorComplete attrPresent
  cases conn_elem.get "FROMFIELD" <;> cases conn_elem.get "FROMINSTANCE" <;>
    cases conn_elem.get "TOFIELD" <;> cases conn_elem.get "TOINSTANCE" <;>
    (simp; try (split <;> simp_all))

theorem length_filterMap_connOf (l : List XML) :
    (l.filterMap connOf).length = (l.filter connectorComplete).length := by
  induction l with
  | nil => rfl
  | cons e t ih =>
    rw [List.filterMap_cons, List.filter_cons]
    cases hg : connOf e with
    | none =>
        have hc : connectorComplete e = false := by rw [← connOf_isSome, hg]; rfl
        simp [hc, ih]
    | some c =>
        have hc : connectorComplete e = true := by rw [← connOf_isSome, hg]; rfl
        simp [hc, ih]

/-- Claim C1: for a well-formed input whose first `MAPPING` element is
`mapping_elem`, `parse` returns a `Mapping` with exactly one transformation
per `TRANSFORMATION` element under the mapping element in document order,
and exactly one connection per `CONNECTOR` element whose four addressing
attributes are all present and non-empty; incomplete connectors are dropped
without error. -/
theorem parse_entry_per_marker (root mapping_elem : XML) (m : Mapping)
    (hm : root.findFirst "MAPPING" = some mapping_elem)
    (hp : parse root = Except.ok m) :
    m.transformations = (mapping_elem.findall "TRANSFORMATION").map transOf ∧
    m.transformations.length = (mapping_elem.findall "TRANSFORMATION").length ∧
    m.connections = (mapping_elem.findall "CONNECTOR").filterMap connOf ∧
    m.connections.length =
      ((mapping_elem.findall "CONNECTOR").filter connectorComplete).length := by
  unfold parse at hp
  rw [hm] at hp
  simp only [Except.ok.injEq] at hp
  subst hp
  refine ⟨rfl, ?_, rfl, ?_⟩
  · show (parse_transformations mapping_elem).length = _
    unfold parse_transformations
    exact List.length_map _ _
  · show (parse_connections mapping_elem).length = _
    unfold parse_connections
    exact length_filterMap_connOf _

/-- Witness for C1 at a concrete document: one transformation marker, one
complete connector, one connector missing `TOFIELD` (dropped). -/
theorem parse_entry_per_marker_witness :
    sampleMapping.transformations =
      (sampleMappingElem.findall "TRANSFORMATION").map transOf ∧
    sampleMapping.transformations.length =
      (sampleMappingElem.findall "TRANSFORMATION").length ∧
    sampleMapping.connections =
      (sampleMappingElem.findall "CONNECTOR").filterMap connOf ∧
    sampleMapping.connections.length =
      ((sampleMappingElem.findall "CONNECTOR").filter connectorComplete).length :=
  parse_entry_per_marker sampleRoot sampleMappingElem sampleMapping rfl rfl

theorem propStep_eq (d : List (String × String)) (e : XML) :
    propStep d e =
      match propOf e with
      | some p => dictInsert d p.1 p.2
      | none => d := by
  unfold propStep propOf
  cases e.get "NAME" <;> cases e.get "VALUE" <;> simp
  split <;> simp

theorem foldl_propStep_filterMap (l : List XML) (d : List (String × String)) :
    l.foldl propStep d =
      (l.filterMap propOf).foldl (fun d0 p => dictInsert d0 p.1 p.2) d := by
  induction l generalizing d with
  | nil => rfl
  | cons e t ih =>
    rw [List.foldl_cons, List.filterMap_cons, propStep_eq]
    cases hg : propOf e with
    | none => exact ih d
    | some p =>
        show List.foldl propStep (dictInsert d p.1 p.2) t =
          List.foldl (fun d0 p => dictInsert d0 p.1 p.2) d (p :: List.filterMap propOf t)
        rw [List.foldl_cons]
        exact ih _

theorem dictGet_dictInsert (d : List (String × String)) (k v q : String) :
    dictGet (dictInsert d k v) q = if k == q then some v else dictGet d q := by
  induction d with
  | nil => cases hkq : k == q <;> simp [dictGet, dictInsert, List.find?, hkq]
  | cons p rest ih =>
    obtain ⟨k0, v0⟩ := p
    by_cases hk0 : k0 = k
    · subst hk0
      have hb : (k0 == k0) = true := by simp
      cases hkq : k0 == q <;>
        simp [dictGet, dictInsert, List.find?, hb, hkq]
    · have hb : (k0 == k) = false := by simp [hk0]
      by_cases hq0 : k0 = q
      · subst hq0
        have hkq : (k == k0) = false := by
          simp only [beq_eq_false_iff_ne, ne_eq]
          exact fun h => hk0 h.symm
        simp [dictGet, dictInsert, List.find?, hb, hkq]
      · have hq0b : (k0 == q) = false := by simp [hq0]
        cases hkq : k == q <;>
          simp [dictGet, dictInsert, List.find?, hb, hq0b, hkq] <;>
          simpa [dictGet, hkq] using ih

theorem dictGet_foldl_dictInsert (l d : List (String × String)) (q : String) :
    dictGet (l.foldl (fun d0 p => dictInsert d0 p.1 p.2) d) q =
      ((l.reverse.find? (fun p => p.1 == q)).map (fun p => p.2)).or (dictGet d q) := by
  induction l generalizing d with
  | nil => simp
  | cons p t ih =>
    rw [List.foldl_cons, ih, List.reverse_cons, List.find?_append, dictGet_dictInsert]
    cases hf : t.reverse.find? (fun x => x.1 == q) with
    | some r => simp [Option.or]
    | none =>
      cases hpq : p.1 == q <;> simp [List.find?, hpq, Option.or]

/-- Claim C6: for every `TRANSFORMATION` element, the properties map equals
the element's own attributes overlaid, in document order, with the
name/value pairs of the nested `TABLEATTRIBUTE` elements that have both
attributes present and non-empty; incomplete property elements contribute
nothing, and on key collision the later overlay entry wins over earlier
overlays and over the copied attributes. Stated as the lookup value of every
key: the last matching overlay pair if one exists, else the attribute. -/
theorem properties_overlay_semantics (trans_elem : XML) (q : String) :
    dictGet (parse_properties trans_elem) q =
      (((overlayPairs trans_elem).reverse.find? (fun p => p.1 == q)).map
          (fun p => p.2)).or
        ((trans_elem.attrib.reverse.find? (fun p => p.1 == q)).map (fun p => p.2)) := by
  unfold parse_properties overlayPairs
  rw [foldl_propStep_filterMap, dictGet_foldl_dictInsert, dictGet_foldl_dictInsert]
  simp [dictGet, List.find?]

theorem filter_source_target_length (l : List Transformation) :
    (l.filter (fun t => t.type == "Source Definition")).length +
        (l.filter (fun t => t.type == "Target Definition")).length ≤ l.length ∧
      ((l.filter (fun t => t.type == "Source Definition")).length +
          (l.filter (fun t => t.type == "Target Definition")).length = l.length ↔
        ∀ t ∈ l, t.type = "Source Definition" ∨ t.type = "Target Definition") := by
  induction l with
  | nil => simp
  | cons t rest ih =>
    obtain ⟨ih1, ih2⟩ := ih
    by_cases hs : t.type = "Source Definition"
    · have hsb : (t.type == "Source Definition") = true := by simp [hs]
      have hnb : (t.type == "Target Definition") = false := by rw [hs]; rfl
      simp only [List.filter_cons, hsb, hnb, if_true, if_false, Bool.false_eq_true,
        List.length_cons, List.forall_mem_cons]
      constructor
      · omega
      · constructor
        · intro h
          exact ⟨Or.inl hs, ih2.mp (by omega)⟩
        · rintro ⟨_, hrest⟩
          have := ih2.mpr hrest
          omega
    · by_cases ht : t.type = "Target Definition"
      · have htb : (t.type == "Target Definition") = true := by simp [ht]
        have hnb : (t.type == "Source Definition") = false := by rw [ht]; rfl
        simp only [List.filter_cons, htb, hnb, if_true, if_false, Bool.false_eq_true,
          List.length_cons, List.forall_mem_cons]
        constructor
        · omega
        · constructor
          · intro h
            exact ⟨Or.inr ht, ih2.mp (by omega)⟩
          · rintro ⟨_, hrest⟩
            have := ih2.mpr hrest
            omega
      · have hsb : (t.type == "Source Definition") = false := by
          simp [hs]
        have htb : (t.type == "Target Definition") = false := by
          simp [ht]
        simp only [List.filter_cons, hsb, htb, if_false, Bool.false_eq_true,
          List.length_cons, List.forall_mem_cons]
        constructor
        · omega
        · constructor
          · intro h; omega
          · rintro ⟨hcontr, _⟩
            cases hcontr with
            | inl h => exact absurd h hs
            | inr h => exact absurd h ht

/-- Claim C7: `summary().sources + summary().targets` never exceeds
`summary().total_transformations`, with equality exactly when every
transformation's type is "Source Definition" or "Target Definition"; and a
transformation counts as a source (target) exactly when its normalized type
string-equals "Source Definition" ("Target Definition"). -/
theorem summary_source_target_bound (m : Mapping) :
    (m.get_summary.sources + m.get_summary.targets ≤
        m.get_summary.total_transformations) ∧
    (m.get_summary.sources + m.get_summary.targets =
        m.get_summary.total_transformations ↔
      ∀ t ∈ m.transformations,
        t.type = "Source Definition" ∨ t.type = "Target Definition") ∧
    (∀ t, t ∈ m.get_sources ↔ t ∈ m.transformations ∧ t.type = "Source Definition") ∧
    (∀ t, t ∈ m.get_targets ↔ t ∈ m.transformations ∧ t.type = "Target Definition") := by
  obtain ⟨h1, h2⟩ := filter_source_target_length m.transformations
  refine ⟨h1, h2, ?_, ?_⟩ <;> intro t <;>
    simp [Mapping.get_sources, Mapping.get_targets, List.mem_filter]

theorem decodeOptStr_round (o : Option String) :
    decodeOptStr (jsonOfOptStr o) = some o := by
  cases o <;> rfl

theorem decodeOptInt_round (o : Option Int) :
    decodeOptInt (jsonOfOptInt o) = some o := by
  cases o <;> rfl

theorem decodePort_round (p : Port) : decodePort (portToJson p) = some p := by
  obtain ⟨n, d, pr, sc, nu, pt, ex⟩ := p
  cases pr <;> cases sc <;> cases ex <;> rfl

theorem decodeConn_round (c : Connection) : decodeConn (connToJson c) = some c := rfl

theorem decodeListWith_round {α : Type} (g : Json → Option α) (f : α → Json)
    (h : ∀ a, g (f a) = some a) (l : List α) :
    decodeListWith g (l.map f) = some l := by
  induction l with
  | nil => rfl
  | cons a t ih => simp [decodeListWith, h a, ih]

theorem decodeProps_round (l : List (String × String)) :
    decodeProps (l.map (fun p => (p.1, Json.str p.2))) = some l := by
  induction l with
  | nil => rfl
  | cons p t ih => simp [decodeProps, ih]

theorem decodeTrans_round (t : Transformation) :
    decodeTrans (transToJson t) = some t := by
  obtain ⟨n, ty, de, ps, props⟩ := t
  simp [transToJson, decodeTrans, decodeOptStr_round,
    decodeListWith_round decodePort portToJson decodePort_round,
    decodeProps_round]

/-- Claim C3: round-trip losslessness of the export. Re-reading the
structured document written by `export_to_json` reconstructs a `Mapping`
equal in all fields (name, description, folder, every transformation with
its ports and properties, every connection) to the original. The reader is
modelled from the spec, since the repository ships none. -/
theorem export_roundtrip (m : Mapping) :
    read_mapping_json (export_to_json m) = some m := by
  obtain ⟨n, de, fo, ts, cs⟩ := m
  simp [export_to_json, read_mapping_json, decodeOptStr_round,
    decodeListWith_round decodeTrans transToJson decodeTrans_round,
    decodeListWith_round decodeConn connToJson decodeConn_round]

/-- Claim C8: `parse` is deterministic. Two runs on the same input tree
yield field-for-field equal `Mapping` values. -/
theorem parse_deterministic (root : XML) (m1 m2 : Mapping)
    (h1 : parse root = Except.ok m1) (h2 : parse root = Except.ok m2) :
    m1.name = m2.name ∧ m1.description = m2.description ∧
      m1.folder = m2.folder ∧ m1.transformations = m2.transformations ∧
      m1.connections = m2.connections := by
  rw [h1] at h2
  simp only [Except.ok.injEq] at h2
  subst h2
  exact ⟨rfl, rfl, rfl, rfl, rfl⟩

/-- Witness for C8: both hypotheses discharged by evaluating `parse` on the
concrete sample document. -/
theorem parse_deterministic_witness :
    sampleMapping.name = sampleMapping.name ∧
      sampleMapping.description = sampleMapping.description ∧
      sampleMapping.folder = sampleMapping.folder ∧
      sampleMapping.transformations = sampleMapping.transformations ∧
      sampleMapping.connections = sampleMapping.connections :=
  parse_deterministic sampleRoot sampleMapping sampleMapping rfl rfl

theorem emit_mapping (s : ReportState) (line : String) :
    (emit s line).mapping = s.mapping := rfl

theorem emit_out_ne_nil (s : ReportState) (line : String) :
    (emit s line).out ≠ [] := by
  simp [emit]

theorem foldl_mapping {α : Type} (f : ReportState → α → ReportState)
    (hf : ∀ s a, (f s a).mapping = s.mapping) (l : List α) (s : ReportState) :
    (l.foldl f s).mapping = s.mapping := by
  induction l generalizing s with
  | nil => rfl
  | cons a t ih => rw [List.foldl_cons, ih, hf]

theorem printPortSample_mapping (s : ReportState) (p : Port) :
    (printPortSample s p).mapping = s.mapping := rfl

theorem printBreakdownRow_mapping (s : ReportState) (r : String × Nat) :
    (printBreakdownRow s r).mapping = s.mapping := rfl

theorem printExprRow_mapping (s : ReportState) (p : Port) :
    (printExprRow s p).mapping = s.mapping := rfl

theorem printConnRow_mapping (s : ReportState) (r : Nat × Connection) :
    (printConnRow s r).mapping = s.mapping := rfl

theorem printSourceBlock_mapping (s : ReportState) (t : Transformation) :
    (printSourceBlock s t).mapping = s.mapping := by
  unfold printSourceBlock
  split
  · rfl
  · rw [foldl_mapping printPortSample printPortSample_mapping]
    rfl

theorem printTargetBlock_mapping (s : ReportState) (t : Transformation) :
    (printTargetBlock s t).mapping = s.mapping := by
  unfold printTargetBlock
  split
  · rfl
  · rw [foldl_mapping printPortSample printPortSample_mapping]
    rfl

theorem printDetailBlock_mapping (s : ReportState) (t : Transformation) :
    (printDetailBlock s t).mapping = s.mapping := by
  unfold printDetailBlock
  split
  · rfl
  · dsimp only
    split
    · rfl
    · rw [foldl_mapping printExprRow printExprRow_mapping]
      rfl

/-- Claim C9: the Reporter leaves the `Mapping` unchanged — the embedded
`print_mapping_summary` only ever appends to the output, never writes to the
mapping — and it completes (producing a non-empty report) on every mapping,
including one with zero transformations, sources, targets and connections. -/
theorem reporter_frame (m : Mapping) :
    (print_mapping_summary m).mapping = m ∧ (print_mapping_summary m).out ≠ [] := by
  constructor
  · unfold print_mapping_summary
    simp only [emit_mapping,
      foldl_mapping printConnRow printConnRow_mapping,
      foldl_mapping printDetailBlock printDetailBlock_mapping,
      foldl_mapping printTargetBlock printTargetBlock_mapping,
      foldl_mapping printSourceBlock printSourceBlock_mapping,
      foldl_mapping printBreakdownRow printBreakdownRow_mapping,
      apply_ite ReportState.mapping, ite_self]
  · exact emit_out_ne_nil _ _

/-- Claim C10: every `Port` the parser constructs has non-null name,
datatype, nullable and port_type: a `TRANSFORMFIELD` element missing `NAME`
yields the literal "Unknown", missing `DATATYPE` yields "string", missing
`NULLABLE` yields "NOTNULL", missing `PORTTYPE` yields "INPUT"; and every
parsed port arises from some `TRANSFORMFIELD` element, so missing port
attributes never abort parsing. -/
theorem port_defaults (trans_elem : XML) :
    (∀ p ∈ parse_ports trans_elem,
      ∃ pe ∈ trans_elem.findall "TRANSFORMFIELD", p = portOf pe) ∧
    (∀ port_elem : XML,
      ((port_elem.get "NAME").isNone → (portOf port_elem).name = "Unknown") ∧
      ((port_elem.get "DATATYPE").isNone → (portOf port_elem).datatype = "string") ∧
      ((port_elem.get "NULLABLE").isNone → (portOf port_elem).nullable = "NOTNULL") ∧
      ((port_elem.get "PORTTYPE").isNone → (portOf port_elem).port_type = "INPUT")) := by
  constructor
  · intro p hp
    rw [parse_ports, List.mem_map] at hp
    obtain ⟨pe, hpe, rfl⟩ := hp
    exact ⟨pe, hpe, rfl⟩
  · intro pe
    refine ⟨?_, ?_, ?_, ?_⟩ <;> intro h <;> rw [Option.isNone_iff_eq_none] at h
    · show (pe.get "NAME").getD "Unknown" = "Unknown"
      rw [h]; rfl
    · show (pe.get "DATATYPE").getD "string" = "string"
      rw [h]; rfl
    · show (pe.get "NULLABLE").getD "NOTNULL" = "NOTNULL"
      rw [h]; rfl
    · show (pe.get "PORTTYPE").getD "INPUT" = "INPUT"
      rw [h]; rfl
